import Mathlib

/-!
Verification of the interview-practice client (live session controller in
`useLiveInterview` and the request/response helpers in `geminiService.ts`).

The development shallowly embeds the program's pure logic:

* the audio playback scheduling cursor (`scheduleClip`, `schedulePairs`);
* the transcript accumulator and its turn-complete flush (`handleTranscription`);
* the demo/offline scripted session (`connectDemo`, `demoTick`);
* the idempotent teardown (`disconnect`), with the audio-context close guard
  modelled as a fallible operation;
* credential resolution with JavaScript truthiness (`resolveApiKeyService`,
  `resolveApiKeyConnect`);
* the mock payloads, schema enums, JSON-fence stripping (`cleanJson`), the
  error-absorbing request pipeline (`runHelper`) and the grounding-citation
  mapping of `searchJobs`.

Numeric clock values are modelled as rationals; fallible host operations
return `Except`/`Option` values.
-/

namespace InterviewClient

/-! ## Audio playback scheduling (useLiveInterview, onmessage audio handler)

The handler computes `startTime = max(audioCtx.currentTime, nextStartTimeRef)`,
starts the clip there, and advances `nextStartTimeRef` to
`startTime + audioBuffer.duration`. -/

/-- One scheduling step: given the playback clock `now`, the cursor, and the
clip duration, return the clip's start time and the advanced cursor. -/
def scheduleClip (now cursor duration : ℚ) : ℚ × ℚ :=
  (max now cursor, max now cursor + duration)

/-- Fold the scheduling step over a sequence of clips, each given as a pair
`(clock time at arrival, duration)`; returns the list of
`(start time, duration)` pairs in arrival order. -/
def schedulePairs (cursor : ℚ) : List (ℚ × ℚ) → List (ℚ × ℚ)
  | [] => []
  | (now, d) :: rest =>
      (max now cursor, d) :: schedulePairs (max now cursor + d) rest

/-- The start times computed for a sequence of clips. -/
def scheduleStarts (cursor : ℚ) (clips : List (ℚ × ℚ)) : List ℚ :=
  (schedulePairs cursor clips).map Prod.fst

/-! ## Transcript accumulator (useLiveInterview, onmessage transcription) -/

/-- The transcription-relevant content of one inbound live-server message:
an optional output-transcript delta, an optional input-transcript delta,
and the turn-complete flag. -/
structure LiveMsg where
  outputTranscription : Option String
  inputTranscription : Option String
  turnComplete : Bool
  deriving DecidableEq

/-- Transcript state: the two accumulating buffers and the log lines. -/
structure TranscriptState where
  inputBuf : String
  outputBuf : String
  logs : List String
  deriving DecidableEq

/-- The transcription part of the `onmessage` handler: append an output delta
if present, else an input delta if present; then, on turn-complete, flush each
non-empty buffer as a prefixed log line and clear it (input first). -/
def handleTranscription (st : TranscriptState) (m : LiveMsg) : TranscriptState :=
  let st1 :=
    match m.outputTranscription with
    | some t => { st with outputBuf := st.outputBuf ++ t }
    | none =>
        match m.inputTranscription with
        | some t => { st with inputBuf := st.inputBuf ++ t }
        | none => st
  if m.turnComplete then
    let st2 :=
      if st1.inputBuf ≠ "" then
        { st1 with logs := st1.logs ++ ["You: " ++ st1.inputBuf], inputBuf := "" }
      else st1
    if st2.outputBuf ≠ "" then
      { st2 with logs := st2.logs ++ ["AI: " ++ st2.outputBuf], outputBuf := "" }
    else st2
  else st1

/-- Process a sequence of inbound messages in arrival order. -/
def handleMessages (st : TranscriptState) (ms : List LiveMsg) : TranscriptState :=
  ms.foldl handleTranscription st

/-- A message carrying only an input-transcript delta. -/
def inputDeltaMsg (t : String) : LiveMsg := ⟨none, some t, false⟩

/-- A message carrying only an output-transcript delta. -/
def outputDeltaMsg (t : String) : LiveMsg := ⟨some t, none, false⟩

/-- A message carrying only the turn-complete signal. -/
def turnCompleteMsg : LiveMsg := ⟨none, none, true⟩

/-- The initial transcript state: both buffers empty, no logs. -/
def initTranscript : TranscriptState := ⟨"", "", []⟩

/-! ## Demo / offline mode (useLiveInterview.connect, no-API-key branch) -/

/-- The interval period, in milliseconds, of the simulated conversation loop. -/
def demoIntervalMs : ℕ := 6000

/-- The duration, in milliseconds, for which the speaking indicator stays on
after each scripted line (the `setTimeout` delay). -/
def demoSpeakingMs : ℕ := 3000

/-- The four scripted interviewer lines of the simulated conversation. -/
def demoScripts (role : String) : List String :=
  ["AI: I see you are applying for the " ++ role ++
     " position. Can you tell me a bit about yourself?",
   "AI: That's a great background. What specific technical challenges have you faced recently?",
   "AI: Interesting approach. How do you handle conflict within a team setting?",
   "AI: Thank you for sharing that. Do you have any questions for us about the company?"]

/-- The demo-mode notice logged when no API key is detected. -/
def demoModeNotice : String :=
  "[DEMO MODE] No API Key detected. Starting simulated interview session."

/-- The scripted greeting line logged right after the notice. -/
def demoGreeting : String := "AI: Hello! Welcome to your interview simulation."

/-- The closing line appended when the script is exhausted. -/
def demoClosing : String := "AI: This concludes our demo interview session. Thank you!"

/-- Observable demo-session state: the connected flag, the speaking flag,
the log lines, the `demoStep` counter, and whether the interval is running. -/
structure DemoState where
  connected : Bool
  speaking : Bool
  logs : List String
  demoStep : ℕ
  intervalActive : Bool
  deriving DecidableEq

/-- The session state before `connect` is called. -/
def demoInit : DemoState := ⟨false, false, [], 0, false⟩

/-- The synchronous part of `connect`'s no-API-key branch: set connected,
log the demo notice and the greeting, initialise `demoStep` to 0, and start
the 6-second interval. -/
def connectDemo (s : DemoState) : DemoState :=
  { s with
    connected := true
    logs := s.logs ++ [demoModeNotice, demoGreeting]
    demoStep := 0
    intervalActive := true }

/-- One tick of the simulated conversation interval: while `demoStep` is
within the script, log the current scripted line, set the speaking indicator,
and advance the step; once the script is exhausted, log the closing line and
clear the interval. A cleared interval no longer fires. -/
def demoTick (role : String) (s : DemoState) : DemoState :=
  if s.intervalActive then
    if s.demoStep < (demoScripts role).length then
      { s with
        logs := s.logs ++ [(demoScripts role).getD s.demoStep ""]
        speaking := true
        demoStep := s.demoStep + 1 }
    else
      { s with logs := s.logs ++ [demoClosing], intervalActive := false }
  else s

/-- The 3-second `setTimeout` callback scheduled at each scripted tick:
clear the speaking indicator. -/
def demoSpeakTimeout (s : DemoState) : DemoState := { s with speaking := false }

/-- The demo-session state after `connect` and `n` interval ticks. -/
def demoAfterTicks (role : String) (n : ℕ) : DemoState :=
  (demoTick role)^[n] (connectDemo demoInit)

/-! ## Teardown (useLiveInterview.disconnect) -/

/-- The lifecycle state of a Web Audio `AudioContext`. -/
inductive CtxState where
  | suspended
  | running
  | closed
  deriving DecidableEq

/-- `AudioContext.close()`: rejects with an `InvalidStateError` on an
already-closed context, otherwise transitions the context to `closed`. -/
def closeCtx (st : CtxState) : Except String CtxState :=
  match st with
  | CtxState.closed => Except.error "InvalidStateError"
  | _ => Except.ok CtxState.closed

/-- A captured media track: `stop()` merely marks it ended (idempotent). -/
structure MediaTrack where
  ended : Bool
  deriving DecidableEq

/-- The mutable refs and observable flags that `disconnect` touches. `none`
in a ref field models a never-assigned (`null`) ref, as in a
partially-initialized or never-connected session. -/
structure SessionRefs where
  inputSourceConnected : Option Bool
  processorConnected : Option Bool
  audioContext : Option CtxState
  videoIntervalLive : Option Bool
  demoIntervalLive : Option Bool
  videoSrcTracks : Option (List MediaTrack)
  isConnected : Bool
  isSpeaking : Bool
  nextStartTime : ℚ
  deriving DecidableEq

/-- `disconnect`: detach the audio nodes if present, close the audio context
only when it is not already closed, clear both intervals, stop all captured
tracks and drop the video binding, reset the flags, and reset the playback
cursor to 0. The only fallible host call is `AudioContext.close()`, guarded
by the `state !== 'closed'` check. -/
def disconnect (s : SessionRefs) : Except String SessionRefs := do
  let ctx' ←
    match s.audioContext with
    | some st =>
        if st ≠ CtxState.closed then (closeCtx st).map some
        else pure (some st)
    | none => pure none
  pure
    { inputSourceConnected := s.inputSourceConnected.map (fun _ => false)
      processorConnected := s.processorConnected.map (fun _ => false)
      audioContext := ctx'
      videoIntervalLive := s.videoIntervalLive.map (fun _ => false)
      demoIntervalLive := s.demoIntervalLive.map (fun _ => false)
      videoSrcTracks := none
      isConnected := false
      isSpeaking := false
      nextStartTime := 0 }

/-- Two successive `disconnect` calls, the second on the torn-down state. -/
def disconnectTwice (s : SessionRefs) : Except String SessionRefs :=
  (disconnect s).bind disconnect

/-! ## Credential resolution (geminiService.initializeAI and
useLiveInterview.connect, lines 78-93)

`localStorage.getItem` yields `null` (here `none`) or the stored string; the
code tests the result with JavaScript truthiness, under which the empty
string counts as absent. -/

/-- JavaScript truthiness of a nullable string: `null`/`undefined` and the
empty string are falsy. -/
def jsTruthy (s : Option String) : Bool :=
  match s with
  | none => false
  | some t => t ≠ ""

/-- JavaScript `a || b` on a nullable string: `b` when `a` is falsy. -/
def jsOr (a : Option String) (b : String) : String :=
  match a with
  | some t => if t = "" then b else t
  | none => b

/-- Credential resolution in the helper module's `initializeAI`: use the
persisted key when truthy (`if (localKey)`), else the environment key when
truthy, else leave the client inactive. -/
def resolveApiKeyService (localVal envVal : Option String) : Option String :=
  if jsTruthy localVal then localVal
  else if jsTruthy envVal then envVal
  else none

/-- Credential resolution in the session controller's `connect`: read the
persisted key; when falsy (`if (!apiKey)`), fall back to
`process.env.API_KEY || null`; a still-falsy result selects the demo mode. -/
def resolveApiKeyConnect (localVal envVal : Option String) : Option String :=
  let apiKey := localVal
  if jsTruthy apiKey then apiKey
  else
    match envVal with
    | some e => if e = "" then none else some e
    | none => none

/-- `hasApiKey`: whether a client is active (`!!ai`). -/
def hasApiKey (client : Option String) : Bool := client.isSome

end InterviewClient

namespace GeminiService

open InterviewClient (jsTruthy jsOr)

/-! ## Structured domain records (types used by geminiService.ts)

Field types follow the declared response schemas and the mock payloads. -/

/-- A suggested role inside a parsed resume. -/
structure SuggestedRole where
  title : String
  matchScore : ℤ
  reasoning : String
  requiredSkills : List String
  deriving DecidableEq

/-- A parsed resume record. -/
structure ParsedResume where
  fullName : String
  summary : String
  skills : List String
  yearsOfExperience : ℤ
  suggestedRoles : List SuggestedRole
  deriving DecidableEq

/-- A learning resource; `type` is schema-constrained to an enum of strings. -/
structure LearningResource where
  title : String
  type : String
  url : String
  description : String
  deriving DecidableEq

/-- A quiz question; `category` is schema-constrained to an enum of strings. -/
structure QuizQuestion where
  question : String
  options : List String
  correctAnswer : ℤ
  explanation : String
  category : String
  deriving DecidableEq

/-- A job listing. -/
structure JobListing where
  title : String
  company : String
  location : String
  url : String
  deriving DecidableEq

/-! ## Mock data for offline/demo mode -/

/-- `MOCK_RESUME`. -/
def MOCK_RESUME : ParsedResume :=
  { fullName := "Alex Demo (Offline Mode)"
    summary := "This is a generated profile for the Demo Mode. The candidate is a skilled Frontend Engineer with experience in React and modern web technologies. (No API Key detected)"
    skills := ["React", "TypeScript", "Tailwind CSS", "Node.js", "System Design", "GraphQL"]
    yearsOfExperience := 4
    suggestedRoles :=
      [{ title := "Senior Frontend Engineer"
         matchScore := 92
         reasoning := "Excellent match based on strong React and TypeScript background demonstrated in the demo profile."
         requiredSkills := ["Advanced React", "Performance Optimization", "Micro-frontends", "CI/CD"] },
       { title := "Full Stack Developer"
         matchScore := 85
         reasoning := "Solid foundation for full stack, though stronger on the frontend. Good potential for growth."
         requiredSkills := ["Node.js", "PostgreSQL", "AWS", "Docker"] },
       { title := "Product Engineer"
         matchScore := 78
         reasoning := "Skills align well with product-focused roles that require both technical implementation and UX sensitivity."
         requiredSkills := ["Product Analytics", "A/B Testing", "UX Research", "Agile Methodologies"] }] }

/-- `MOCK_RESOURCES`. -/
def MOCK_RESOURCES : List LearningResource :=
  [{ title := "Advanced React Patterns & Performance"
     type := "Course"
     url := "https://react.dev/learn"
     description := "Deep dive into concurrency, suspense, and advanced hooks for building scalable applications." },
   { title := "The Total TypeScript Handbook"
     type := "Documentation"
     url := "https://www.typescriptlang.org/docs/"
     description := "Comprehensive guide to static typing, generics, and type manipulation." },
   { title := "System Design for Client-Side Engineers"
     type := "Article"
     url := "#"
     description := "Learn how to design large-scale frontend applications, focusing on caching, state management, and network performance." },
   { title := "Web Accessibility (A11y) Masterclass"
     type := "Video"
     url := "#"
     description := "Ensure your applications are usable by everyone. Covers ARIA, focus management, and screen readers." },
   { title := "Modern CSS Architecture"
     type := "Article"
     url := "#"
     description := "Strategies for scalable CSS using Tailwind, CSS Modules, or CSS-in-JS." }]

/-- `MOCK_QUIZ`. -/
def MOCK_QUIZ : List QuizQuestion :=
  [{ question := "In React, what is the main purpose of the `useEffect` cleanup function?"
     options :=
       ["To clear the component's state",
        "To cancel subscriptions, timers, or listeners to prevent memory leaks",
        "To trigger a re-render",
        "To delete the component from the DOM immediately"]
     correctAnswer := 1
     explanation := "The cleanup function is called before the component unmounts or before the effect runs again, allowing you to clean up side effects like subscriptions."
     category := "Technical" },
   { question := "Which HTTP status code indicates that the resource was not found on the server?"
     options := ["200 OK", "301 Moved Permanently", "404 Not Found", "500 Internal Server Error"]
     correctAnswer := 2
     explanation := "404 indicates that the server cannot find the requested resource."
     category := "Technical" },
   { question := "A bat and a ball cost $1.10 in total. The bat costs $1.00 more than the ball. How much does the ball cost?"
     options := ["$0.05", "$0.10", "$0.15", "$0.01"]
     correctAnswer := 0
     explanation := "If Ball = x, then Bat = x + 1. Total = x + (x + 1) = 1.10. 2x = 0.10, so x = 0.05."
     category := "Aptitude" },
   { question := "What does the 'C' in ACID properties of database transactions stand for?"
     options := ["Capacity", "Consistency", "Concurrency", "Durability"]
     correctAnswer := 1
     explanation := "ACID stands for Atomicity, Consistency, Isolation, and Durability."
     category := "Technical" },
   { question := "You have a disagreement with a senior engineer about a technical implementation. How do you handle it?"
     options :=
       ["Do it their way immediately to avoid conflict",
        "Argue until they agree with you",
        "Present data and pros/cons for both approaches and discuss openly",
        "Escalate to the manager"]
     correctAnswer := 2
     explanation := "Focusing on data, trade-offs, and open discussion is the most professional and productive approach."
     category := "Behavioral" }]

/-- `MOCK_JOBS`. -/
def MOCK_JOBS : List JobListing :=
  [{ title := "Senior Frontend Developer", company := "TechCorp (Demo)",
     location := "Remote", url := "#" },
   { title := "React Native Engineer", company := "AppStudio (Demo)",
     location := "New York, NY", url := "#" },
   { title := "UI Platform Engineer", company := "CloudScale (Demo)",
     location := "San Francisco, CA", url := "#" },
   { title := "Software Engineer, Frontend", company := "Streamline (Demo)",
     location := "London, UK", url := "#" },
   { title := "Full Stack Engineer", company := "StartupX (Demo)",
     location := "Austin, TX", url := "#" }]

/-! ## JSON-fence stripping (`cleanJson`)

`cleanJson` returns the two-character brace string on a falsy (empty) input;
otherwise it removes a leading "```json" followed by its whitespace run,
removes a trailing "```" together with the whitespace run before it, and
trims the result. Characters matched by the regex class `\s` relevant here
are modelled by `isJsWS`. -/

/-- Whitespace characters as matched by the JavaScript regex class `\s`
(restricted to the ASCII range). -/
def isJsWS (c : Char) : Bool :=
  c = ' ' || c = '\t' || c = '\n' || c = '\r' || c = '\x0c' || c = '\x0b'

/-- Drop the longest whitespace prefix and suffix (JavaScript `trim`). -/
def trimJs (cs : List Char) : List Char :=
  ((cs.dropWhile isJsWS).reverse.dropWhile isJsWS).reverse

/-- First replacement of `cleanJson`: when the text starts with the literal
seven-character fence "```json", drop it and the following whitespace run;
otherwise leave the text unchanged. -/
def stripFencePre (cs : List Char) : List Char :=
  if ("```json".toList).isPrefixOf cs then
    (cs.drop 7).dropWhile isJsWS
  else cs

/-- Second replacement of `cleanJson`: when the text ends with the literal
three-character fence "```", drop it and the whitespace run before it;
otherwise leave the text unchanged. -/
def stripFenceSuf (cs : List Char) : List Char :=
  if ("```".toList).isSuffixOf cs then
    ((cs.take (cs.length - 3)).reverse.dropWhile isJsWS).reverse
  else cs

/-- `cleanJson`. -/
def cleanJson (text : String) : String :=
  if text = "" then "\x7b\x7d"
  else String.mk (trimJs (stripFenceSuf (stripFencePre text.toList)))

/-! ## Error-absorbing request pipeline

The online path of every helper is: issue the request, read `response.text`
(or a default when the field is absent), strip fences with `cleanJson`,
`JSON.parse` the result, and on any raised failure return the helper's mock
payload via `handleOfflineError`. The request outcome and the parse are
abstracted: a request either fails or yields an optional response text, and
the parse of the cleaned text either fails or yields a typed value. -/

/-- The outcome of the network request: a failure, or a response whose
`text` field may be absent. -/
def RequestOutcome : Type := Except String (Option String)

/-- The try/catch body shared by all helpers: on request failure return the
mock; otherwise clean and parse `response.text || dflt`, returning the mock
if the parse raises. -/
def runHelper {α : Type} (parse : String → Except String α) (mock : α)
    (dflt : String) (outcome : RequestOutcome) : α :=
  match outcome with
  | Except.error _ => mock
  | Except.ok text? =>
      match parse (cleanJson (text?.getD dflt)) with
      | Except.ok v => v
      | Except.error _ => mock

/-! ## Schema enums and offline results of the generation helpers -/

/-- The `type` enum declared in `generateLearningPath`'s response schema. -/
def learningPathTypeEnum : List String :=
  ["Course", "Article", "Video", "Documentation"]

/-- The `type` enum declared in `generateAptitudePrep`'s response schema. -/
def aptitudePrepTypeEnum : List String := ["Article", "Video", "Documentation"]

/-- The `category` enum declared in the quiz/mock-test response schemas. -/
def quizCategoryEnum : List String := ["Technical", "Aptitude", "Behavioral"]

/-- A learning-resource list conforms to `generateLearningPath`'s schema when
every element's `type` lies in that schema's enum. -/
def learningPathSchemaOK (l : List LearningResource) : Bool :=
  l.all (fun r => r.type ∈ learningPathTypeEnum)

/-- A learning-resource list conforms to `generateAptitudePrep`'s schema when
every element's `type` lies in that schema's enum. -/
def aptitudePrepSchemaOK (l : List LearningResource) : Bool :=
  l.all (fun r => r.type ∈ aptitudePrepTypeEnum)

/-- A question list conforms to the quiz/mock-test schemas when every
element's `category` lies in the declared enum. -/
def quizSchemaOK (l : List QuizQuestion) : Bool :=
  l.all (fun q => q.category ∈ quizCategoryEnum)

/-- `parseResumeDocument` with no active client returns `MOCK_RESUME`;
the two arguments (document payload and mime type) are ignored. -/
def parseResumeDocumentOffline (_base64Data _mimeType : String) : ParsedResume :=
  MOCK_RESUME

/-- `generateLearningPath` with no active client returns `MOCK_RESOURCES`. -/
def generateLearningPathOffline (_role : String) (_currentSkills : List String) :
    List LearningResource :=
  MOCK_RESOURCES

/-- `generateQuiz` with no active client returns `MOCK_QUIZ`. -/
def generateQuizOffline (_role _difficulty _topic : String) : List QuizQuestion :=
  MOCK_QUIZ

/-- `generateAptitudePrep` with no active client returns `MOCK_RESOURCES`. -/
def generateAptitudePrepOffline : List LearningResource := MOCK_RESOURCES

/-- `generateFullMockTest` with no active client returns the mock quiz
duplicated (`[...MOCK_QUIZ, ...MOCK_QUIZ]`). -/
def generateFullMockTestOffline (_role : String) : List QuizQuestion :=
  MOCK_QUIZ ++ MOCK_QUIZ

/-- `searchJobs` with no active client returns `MOCK_JOBS`. -/
def searchJobsOffline (_role _location : String) : List JobListing := MOCK_JOBS

/-! ## searchJobs retrieval-augmented mode (active client) -/

/-- The `web` field of a grounding chunk: an optional source link and title. -/
structure WebSource where
  uri : Option String
  title : Option String
  deriving DecidableEq

/-- A grounding citation record returned with a search-augmented response. -/
structure GroundingChunk where
  web : Option WebSource
  deriving DecidableEq

/-- The filter `c.web?.uri && c.web?.title`: the chunk has a `web` record
whose `uri` and `title` are both present and truthy. -/
def chunkHasTitleAndLink (c : GroundingChunk) : Bool :=
  match c.web with
  | some w => jsTruthy w.uri && jsTruthy w.title
  | none => false

/-- Map one grounding chunk to a job listing: citation title as title (with
the `"Job Opening"` fallback of `c.web?.title || "Job Opening"`), a fixed
company, the requested location, and the citation link as url. -/
def chunkToListing (location : String) (c : GroundingChunk) : JobListing :=
  { title := jsOr (c.web.bind WebSource.title) "Job Opening"
    company := "Source: Web"
    location := location
    url := jsOr (c.web.bind WebSource.uri) "#" }

/-- Characters left unescaped by JavaScript `encodeURIComponent`. -/
def isUriUnreserved (n : ℕ) : Bool :=
  (48 ≤ n && n ≤ 57) || (65 ≤ n && n ≤ 90) || (97 ≤ n && n ≤ 122) ||
    n ∈ [45, 95, 46, 33, 126, 42, 39, 40, 41]

/-- An uppercase hexadecimal digit. -/
def hexDigit (n : ℕ) : Char :=
  if n < 10 then Char.ofNat (48 + n) else Char.ofNat (55 + n)

/-- `encodeURIComponent`: keep unreserved characters, percent-encode all
other UTF-8 bytes. -/
def encodeURIComponent (s : String) : String :=
  s.toUTF8.toList.foldl
    (fun acc b =>
      let n := b.toNat
      if isUriUnreserved n then acc.push (Char.ofNat n)
      else (acc.push '%' |>.push (hexDigit (n / 16))).push (hexDigit (n % 16)))
    ""

/-- The single listing synthesized when no usable citation is present. -/
def genericSearchListing (role location : String) : JobListing :=
  { title := role ++ " - Search Results"
    company := "Google Search"
    location := location
    url := "https://www.google.com/search?q=" ++ encodeURIComponent (role ++ " jobs") }

/-- `searchJobs` with an active client, as a function of the grounding chunks
of the response (`groundingChunks || []`): keep the chunks with a truthy
title and link, map them to listings, cap at 6 (`slice(0, 6)`), and fall
back to the single synthesized listing when none remain. -/
def searchJobsOnline (role location : String) (chunks : List GroundingChunk) :
    List JobListing :=
  let listings := ((chunks.filter chunkHasTitleAndLink).map (chunkToListing location)).take 6
  if listings.isEmpty then [genericSearchListing role location]
  else listings

/-! ## Host `JSON.parse` model

A model of the host's `JSON.parse`, on the JSON fragment the helpers
exercise: null, booleans, integers, strings without escape sequences,
arrays, and objects. Inputs outside this fragment yield `none`. -/

/-- Structured JSON values. -/
inductive Json where
  | null : Json
  | bool (b : Bool) : Json
  | num (n : ℤ) : Json
  | str (s : String) : Json
  | arr (elems : List Json) : Json
  | obj (members : List (String × Json)) : Json

/-- Skip leading JSON whitespace. -/
def skipWs (cs : List Char) : List Char := cs.dropWhile isJsWS

/-- Read the remainder of a string literal after its opening quote;
escape sequences are outside the modelled fragment. -/
def parseStringBody : List Char → String → Option (String × List Char)
  | [], _ => none
  | c :: rest, acc =>
      if c = '"' then some (acc, rest)
      else if c = '\\' then none
      else parseStringBody rest (acc.push c)

/-- The value of a non-empty digit run. -/
def digitsToNat (ds : List Char) : ℕ :=
  ds.foldl (fun n c => 10 * n + (c.toNat - 48)) 0

/-- Read a non-empty digit run as a natural number. -/
def parseDigits (cs : List Char) : Option (ℕ × List Char) :=
  let ds := cs.takeWhile Char.isDigit
  if ds.isEmpty then none else some (digitsToNat ds, cs.drop ds.length)

mutual

/-- Read one JSON value; `fuel` bounds the nesting depth. -/
def parseValue : ℕ → List Char → Option (Json × List Char)
  | 0, _ => none
  | fuel + 1, cs =>
    match skipWs cs with
    | 'n' :: 'u' :: 'l' :: 'l' :: rest => some (Json.null, rest)
    | 't' :: 'r' :: 'u' :: 'e' :: rest => some (Json.bool true, rest)
    | 'f' :: 'a' :: 'l' :: 's' :: 'e' :: rest => some (Json.bool false, rest)
    | '"' :: rest =>
        match parseStringBody rest "" with
        | some (s, rest') => some (Json.str s, rest')
        | none => none
    | '[' :: rest =>
        match skipWs rest with
        | ']' :: rest' => some (Json.arr [], rest')
        | cs' =>
            match parseElems fuel cs' with
            | some (xs, rest') => some (Json.arr xs, rest')
            | none => none
    | '\x7b' :: rest =>
        match skipWs rest with
        | '\x7d' :: rest' => some (Json.obj [], rest')
        | cs' =>
            match parseMembers fuel cs' with
            | some (kvs, rest') => some (Json.obj kvs, rest')
            | none => none
    | '-' :: rest =>
        match parseDigits rest with
        | some (n, rest') => some (Json.num (-(n : ℤ)), rest')
        | none => none
    | cs' =>
        match parseDigits cs' with
        | some (n, rest') => some (Json.num (n : ℤ), rest')
        | none => none

/-- Read the comma-separated elements of a non-empty array, up to and
including the closing bracket. -/
def parseElems : ℕ → List Char → Option (List Json × List Char)
  | 0, _ => none
  | fuel + 1, cs =>
    match parseValue fuel cs with
    | some (v, rest) =>
        match skipWs rest with
        | ',' :: rest' =>
            match parseElems fuel rest' with
            | some (vs, rest'') => some (v :: vs, rest'')
            | none => none
        | ']' :: rest' => some ([v], rest')
        | _ => none
    | none => none

/-- Read the comma-separated members of a non-empty object, up to and
including the closing brace. -/
def parseMembers : ℕ → List Char → Option (List (String × Json) × List Char)
  | 0, _ => none
  | fuel + 1, cs =>
    match skipWs cs with
    | '"' :: rest =>
        match parseStringBody rest "" with
        | some (k, rest') =>
            match skipWs rest' with
            | ':' :: rest'' =>
                match parseValue fuel rest'' with
                | some (v, rest3) =>
                    match skipWs rest3 with
                    | ',' :: rest4 =>
                        match parseMembers fuel rest4 with
                        | some (kvs, rest5) => some ((k, v) :: kvs, rest5)
                        | none => none
                    | '\x7d' :: rest4 => some ([(k, v)], rest4)
                    | _ => none
                | none => none
            | _ => none
        | none => none
    | _ => none

end

/-- `JSON.parse` on the modelled fragment: read one value and require only
whitespace after it. -/
def jsonParse (s : String) : Option Json :=
  match parseValue (s.length + 1) s.toList with
  | some (v, rest) => if skipWs rest = [] then some v else none
  | none => none

end GeminiService

namespace InterviewClient

/-! ## Scheduling lemmas -/

/-- The first clip scheduled from cursor `c` starts no earlier than `c`. -/
theorem schedulePairs_head_ge (c : ℚ) (l : List (ℚ × ℚ)) :
    ∀ p ∈ (schedulePairs c l).head?, c ≤ p.1 := by
  cases l with
  | nil => simp [schedulePairs]
  | cons hd tl =>
      obtain ⟨now, d⟩ := hd
      intro p hp
      simp only [schedulePairs, List.head?_cons, Option.mem_def,
        Option.some.injEq] at hp
      rw [← hp]
      exact le_max_right now c

/-- Consecutive scheduled clips never overlap: each clip's start time is at
least the previous clip's start time plus its duration. -/
theorem schedulePairs_chain (c : ℚ) (l : List (ℚ × ℚ)) :
    List.Chain' (fun a b => a.1 + a.2 ≤ b.1) (schedulePairs c l) := by
  induction l generalizing c with
  | nil => simp [schedulePairs]
  | cons hd tl ih =>
      obtain ⟨now, d⟩ := hd
      rw [schedulePairs, List.chain'_cons']
      exact ⟨fun b hb => schedulePairs_head_ge (max now c + d) tl b hb, ih _⟩

/-- With non-negative durations, the computed start times are non-decreasing. -/
theorem scheduleStarts_chain :
    ∀ (l : List (ℚ × ℚ)) (c : ℚ), (∀ p ∈ l, 0 ≤ p.2) →
      List.Chain' (· ≤ ·) (scheduleStarts c l)
  | [], _, _ => by simp [scheduleStarts, schedulePairs]
  | (now, d) :: tl, c, hnn => by
      have hd0 : 0 ≤ d := hnn (now, d) (List.mem_cons_self _ _)
      have htl : ∀ p ∈ tl, 0 ≤ p.2 := fun p hp => hnn p (List.mem_cons_of_mem _ hp)
      rw [scheduleStarts, schedulePairs, List.map_cons, List.chain'_cons']
      refine ⟨?_, scheduleStarts_chain tl (max now c + d) htl⟩
      intro b hb
      rw [List.head?_map] at hb
      obtain ⟨p, hp, rfl⟩ := Option.map_eq_some'.mp hb
      have := schedulePairs_head_ge (max now c + d) tl p hp
      have hle : max now c ≤ max now c + d := by linarith
      exact hle.trans this

/-- C1: for every sequence of decoded clips handled in arrival order, each
clip starts at `max(current clock, cursor)` and the cursor advances to that
start plus the clip's duration (first conjunct, the unfolding of one
scheduling step); consequently consecutive clips never overlap (second
conjunct) and, for non-negative durations, the start times are
non-decreasing (third conjunct). -/
theorem audio_schedule_invariant (c : ℚ) (clips : List (ℚ × ℚ))
    (hnn : ∀ p ∈ clips, 0 ≤ p.2) :
    (∀ now d rest c', schedulePairs c' ((now, d) :: rest) =
        ((scheduleClip now c' d).1, d) :: schedulePairs (scheduleClip now c' d).2 rest)
    ∧ List.Chain' (fun a b => a.1 + a.2 ≤ b.1) (schedulePairs c clips)
    ∧ List.Chain' (· ≤ ·) (scheduleStarts c clips) := by
  refine ⟨fun now d rest c' => rfl, schedulePairs_chain c clips,
    scheduleStarts_chain clips c hnn⟩

/-- Witness for C1 at the concrete clip sequence
`[(0, 2), (1, 3), (9, 1)]` from cursor `0`. -/
theorem audio_schedule_invariant_witness :
    (∀ p ∈ [((0 : ℚ), (2 : ℚ)), (1, 3), (9, 1)], 0 ≤ p.2)
    ∧ List.Chain' (· ≤ ·)
        (scheduleStarts 0 [((0 : ℚ), (2 : ℚ)), (1, 3), (9, 1)]) :=
  ⟨by decide,
    (audio_schedule_invariant 0 [((0 : ℚ), (2 : ℚ)), (1, 3), (9, 1)]
      (by decide)).2.2⟩

/-- C2: from empty buffers, an input delta "Hello", an output delta
"Hi there", then a turn-complete message append exactly the two log lines
"You: Hello" and "AI: Hi there" and clear both buffers; and a turn-complete
flushes nothing for a buffer that is empty (second and third conjuncts). -/
theorem transcript_flush_correct :
    (handleMessages initTranscript
        [inputDeltaMsg "Hello", outputDeltaMsg "Hi there", turnCompleteMsg] =
      ⟨"", "", ["You: Hello", "AI: Hi there"]⟩)
    ∧ (∀ b logs, handleTranscription ⟨"", b, logs⟩ turnCompleteMsg =
        ⟨"", "", logs ++ (if b = "" then [] else ["AI: " ++ b])⟩)
    ∧ (∀ a logs, handleTranscription ⟨a, "", logs⟩ turnCompleteMsg =
        ⟨"", "", logs ++ (if a = "" then [] else ["You: " ++ a])⟩) := by
  refine ⟨by decide, ?_, ?_⟩
  · intro b logs
    by_cases hb : b = "" <;>
      simp [handleTranscription, turnCompleteMsg, hb]
  · intro a logs
    by_cases ha : a = "" <;>
      simp [handleTranscription, turnCompleteMsg, ha]

/-! ## Demo-mode lemmas -/

/-- One interval tick is one application of `demoTick`. -/
theorem demoAfterTicks_succ (role : String) (n : ℕ) :
    demoAfterTicks role (n + 1) = demoTick role (demoAfterTicks role n) :=
  Function.iterate_succ_apply' (demoTick role) n (connectDemo demoInit)

/-- A cleared interval no longer changes the state. -/
theorem demoTick_inactive (role : String) (s : DemoState)
    (h : s.intervalActive = false) : demoTick role s = s := by
  simp [demoTick, h]

/-- The state after the fifth tick: all four scripted lines and the closing
line are logged and the interval is stopped. -/
theorem demoAfterTicks_five (role : String) :
    demoAfterTicks role 5 =
      ⟨true, true,
        [demoModeNotice, demoGreeting] ++ demoScripts role ++ [demoClosing],
        4, false⟩ := rfl

/-- From the fifth tick on, the demo state no longer changes. -/
theorem demoAfterTicks_fix (role : String) :
    ∀ m, demoAfterTicks role (5 + m) = demoAfterTicks role 5
  | 0 => rfl
  | m + 1 => by
      have h : 5 + (m + 1) = (5 + m) + 1 := rfl
      rw [h, demoAfterTicks_succ, demoAfterTicks_fix role m, demoAfterTicks_five]
      exact demoTick_inactive role _ rfl

/-- C3 counterexample: the no-credential branch of `connect` synchronously
appends two log lines — the demo-mode notice and the greeting — not exactly
one line. -/
theorem connect_demo_appends_two_lines :
    (connectDemo demoInit).logs = [demoModeNotice, demoGreeting]
    ∧ (connectDemo demoInit).logs.length = 2
    ∧ (connectDemo demoInit).logs.length ≠ 1 := by
  refine ⟨rfl, rfl, ?_⟩
  decide

/-- C3 (amended): with no credential, `connect` sets the connected flag and
synchronously appends two lines, a demo-mode notice and exactly one greeting
line; the 6-second interval then appends the 4 scripted lines one per tick
(setting the speaking indicator, which the 3-second timeout clears), then
one closing line, and stops — never more than 5 lines after `connect`
returns. -/
theorem demo_mode_script (role : String) :
    (connectDemo demoInit).connected = true
    ∧ (connectDemo demoInit).logs = [demoModeNotice, demoGreeting]
    ∧ (connectDemo demoInit).logs.count demoGreeting = 1
    ∧ (∀ n, n ≤ 4 → (demoAfterTicks role n).logs =
        [demoModeNotice, demoGreeting] ++ (demoScripts role).take n)
    ∧ (∀ n, 1 ≤ n → n ≤ 5 → (demoAfterTicks role n).speaking = true)
    ∧ (demoAfterTicks role 5).logs =
        [demoModeNotice, demoGreeting] ++ demoScripts role ++ [demoClosing]
    ∧ (demoAfterTicks role 5).intervalActive = false
    ∧ (∀ n, 5 ≤ n → demoAfterTicks role n = demoAfterTicks role 5)
    ∧ (∀ n, (demoAfterTicks role n).logs.length ≤
        (connectDemo demoInit).logs.length + 5)
    ∧ (∀ s, (demoSpeakTimeout s).speaking = false)
    ∧ demoIntervalMs = 6000 ∧ demoSpeakingMs = 3000 := by
  have hfix : ∀ n, 5 ≤ n → demoAfterTicks role n = demoAfterTicks role 5 := by
    intro n hn
    obtain ⟨m, rfl⟩ := Nat.exists_eq_add_of_le hn
    exact demoAfterTicks_fix role m
  refine ⟨rfl, rfl, by decide, ?_, ?_, rfl, rfl, hfix, ?_, fun s => rfl, rfl, rfl⟩
  · intro n hn
    interval_cases n <;> rfl
  · intro n h1 h5
    interval_cases n <;> rfl
  · intro n
    rcases Nat.lt_or_ge n 5 with h | h
    · interval_cases n
      · exact Nat.le_add_right _ _
      · show (3 : ℕ) ≤ 7
        decide
      · show (4 : ℕ) ≤ 7
        decide
      · show (5 : ℕ) ≤ 7
        decide
      · show (6 : ℕ) ≤ 7
        decide
    · rw [hfix n h]
      show (7 : ℕ) ≤ 7
      decide

/-- Witness for C3 (amended): at role "Candidate", the sixth tick leaves the
state of the fifth tick unchanged. -/
theorem demo_mode_script_witness :
    (5 : ℕ) ≤ 6 ∧ demoAfterTicks "Candidate" 6 = demoAfterTicks "Candidate" 5 :=
  ⟨by decide, (demo_mode_script "Candidate").2.2.2.2.2.2.2.1 6 (by decide)⟩

/-- C6: `disconnect` is a non-raising, idempotent teardown: on any session
state — including partially-initialized ones — it succeeds, a second call
on the torn-down state succeeds and changes nothing, and the final state
has connected and speaking cleared and the playback cursor reset to 0. -/
theorem disconnect_idempotent (s : SessionRefs) :
    ∃ t, disconnect s = Except.ok t
      ∧ disconnect t = Except.ok t
      ∧ disconnectTwice s = Except.ok t
      ∧ t.isConnected = false ∧ t.isSpeaking = false ∧ t.nextStartTime = 0 := by
  obtain ⟨i, p, ctx, vi, di, tr, c, sp, nst⟩ := s
  cases ctx with
  | none =>
      cases i <;> cases p <;> cases vi <;> cases di <;>
        exact ⟨_, rfl, rfl, rfl, rfl, rfl, rfl⟩
  | some st =>
      cases st <;> cases i <;> cases p <;> cases vi <;> cases di <;>
        exact ⟨_, rfl, rfl, rfl, rfl, rfl, rfl⟩

/-- C7 counterexample: with a persisted credential that is the empty string,
both resolution sites consult and use the environment value, so a persisted
credential's mere existence does not make it the one used. -/
theorem credential_empty_persisted_uses_env :
    resolveApiKeyService (some "") (some "ENV_KEY") = some "ENV_KEY"
    ∧ resolveApiKeyConnect (some "") (some "ENV_KEY") = some "ENV_KEY"
    ∧ (some "ENV_KEY" : Option String) ≠ some "" := by
  refine ⟨rfl, rfl, ?_⟩
  decide

/-- C7 (amended): a non-empty persisted credential is always the one used
and the environment value is not consulted; with no (or an empty) persisted
credential, a non-empty environment value is used; with neither, no client
is active; an empty persisted value is treated exactly like an absent one.
Both the helper module's initialization and the session controller's
`connect` behave this way. -/
theorem credential_precedence (k e : String) (env : Option String)
    (hk : k ≠ "") (he : e ≠ "") :
    resolveApiKeyService (some k) env = some k
    ∧ resolveApiKeyConnect (some k) env = some k
    ∧ resolveApiKeyService none (some e) = some e
    ∧ resolveApiKeyConnect none (some e) = some e
    ∧ resolveApiKeyService none none = none
    ∧ resolveApiKeyConnect none none = none
    ∧ (∀ env', resolveApiKeyService (some "") env' =
        resolveApiKeyService none env')
    ∧ (∀ env', resolveApiKeyConnect (some "") env' =
        resolveApiKeyConnect none env')
    ∧ hasApiKey (resolveApiKeyService none none) = false := by
  refine ⟨?_, ?_, ?_, ?_, rfl, rfl, ?_, ?_, rfl⟩
  · simp [resolveApiKeyService, jsTruthy, hk]
  · simp [resolveApiKeyConnect, jsTruthy, hk]
  · simp [resolveApiKeyService, jsTruthy, he]
  · simp [resolveApiKeyConnect, jsTruthy, he]
  · intro env'
    cases env' <;> simp [resolveApiKeyService, jsTruthy]
  · intro env'
    cases env' <;> simp [resolveApiKeyConnect, jsTruthy]

/-- Witness for C7 (amended) at the concrete keys "LOCAL_KEY"/"ENV_KEY". -/
theorem credential_precedence_witness :
    ("LOCAL_KEY" : String) ≠ "" ∧ ("ENV_KEY" : String) ≠ ""
    ∧ resolveApiKeyService (some "LOCAL_KEY") (some "ENV_KEY") = some "LOCAL_KEY" :=
  ⟨by decide, by decide,
    (credential_precedence "LOCAL_KEY" "ENV_KEY" (some "ENV_KEY")
      (by decide) (by decide)).1⟩

end InterviewClient

namespace GeminiService

/-- C9: `cleanJson` maps the fenced payload to exactly the plain payload, so
parsing either yields the same structured value; on the empty string it
returns the two-character brace string, which parses successfully. -/
theorem cleanJson_fence_stripping :
    cleanJson "```json\n\x7b\"a\":1\x7d\n```" = "\x7b\"a\":1\x7d"
    ∧ jsonParse (cleanJson "```json\n\x7b\"a\":1\x7d\n```") = jsonParse "\x7b\"a\":1\x7d"
    ∧ jsonParse "\x7b\"a\":1\x7d" = some (Json.obj [("a", Json.num 1)])
    ∧ cleanJson "" = "\x7b\x7d"
    ∧ jsonParse (cleanJson "") = some (Json.obj []) :=
  ⟨by decide, rfl, rfl, rfl, rfl⟩

set_option maxRecDepth 8192 in
/-- C10: with no active client, `generateFullMockTest` returns the 5-question
mock quiz concatenated with itself: 10 questions, each mock question
appearing exactly twice, and the first 5 equal to the offline
`generateQuiz` result. -/
theorem full_mock_test_duplication :
    (∀ role, generateFullMockTestOffline role = MOCK_QUIZ ++ MOCK_QUIZ)
    ∧ (∀ role, (generateFullMockTestOffline role).length = 10)
    ∧ MOCK_QUIZ.length = 5
    ∧ (MOCK_QUIZ.all
        (fun q => (generateFullMockTestOffline "Engineer").count q = 2)) = true
    ∧ (∀ role r d t, (generateFullMockTestOffline role).take 5 =
        generateQuizOffline r d t) :=
  ⟨fun _ => rfl, fun _ => rfl, rfl, by decide, fun _ _ _ _ => rfl⟩

set_option maxRecDepth 8192 in
/-- C4 counterexample: with no active client, `generateAptitudePrep` returns
the learning-path mock set, whose first entry has resource type "Course" —
a value outside that helper's declared enum, so the returned record set does
not match `generateAptitudePrep`'s response schema. -/
theorem aptitude_mock_breaks_schema :
    generateAptitudePrepOffline.head?.map LearningResource.type = some "Course"
    ∧ ("Course" ∈ aptitudePrepTypeEnum) = False
    ∧ aptitudePrepSchemaOK generateAptitudePrepOffline = false := by
  refine ⟨rfl, ?_, rfl⟩
  simp [aptitudePrepTypeEnum]

set_option maxRecDepth 8192 in
/-- C4 (amended): with no active client every helper returns a fixed mock
record set, identical across calls and independent of the inputs; the mock
sets match the declared response schemas (including enum constraints) for
`parseResumeDocument`, `generateLearningPath`, `generateQuiz`,
`generateFullMockTest` and `searchJobs`, but not for `generateAptitudePrep`,
whose reused learning-path mock contains the type "Course" outside its
declared enum. -/
theorem offline_mock_schemas :
    (∀ role skills, learningPathSchemaOK
        (generateLearningPathOffline role skills) = true)
    ∧ (∀ role d t, quizSchemaOK (generateQuizOffline role d t) = true)
    ∧ (∀ role, quizSchemaOK (generateFullMockTestOffline role) = true)
    ∧ learningPathSchemaOK generateAptitudePrepOffline = true
    ∧ aptitudePrepSchemaOK generateAptitudePrepOffline = false
    ∧ (∀ a b a' b', parseResumeDocumentOffline a b = parseResumeDocumentOffline a' b')
    ∧ (∀ r s r' s', generateLearningPathOffline r s = generateLearningPathOffline r' s')
    ∧ (∀ r d t r' d' t', generateQuizOffline r d t = generateQuizOffline r' d' t')
    ∧ (∀ r r', generateFullMockTestOffline r = generateFullMockTestOffline r')
    ∧ generateAptitudePrepOffline = MOCK_RESOURCES
    ∧ (∀ r l r' l', searchJobsOffline r l = searchJobsOffline r' l') :=
  ⟨fun _ _ => rfl, fun _ _ _ => rfl, fun _ => rfl, rfl, rfl,
    fun _ _ _ _ => rfl, fun _ _ _ _ => rfl, fun _ _ _ _ _ _ => rfl,
    fun _ _ => rfl, rfl, fun _ _ _ _ => rfl⟩

/-- C5: every helper's try/catch body absorbs failures: a failed request
yields the helper's mock payload, a failed parse of the cleaned response
text yields the mock payload, and every outcome yields either the mock or a
successfully parsed value — never a propagated error. In particular
`generateFullMockTest` falls back to the duplicated mock quiz and
`searchJobs` to the mock job list. -/
theorem helper_error_absorption :
    (∀ (α : Type) (parse : String → Except String α) (mock : α) (dflt e : String),
        runHelper parse mock dflt (Except.error e) = mock)
    ∧ (∀ (α : Type) (parse : String → Except String α) (mock : α)
        (dflt : String) (text? : Option String) (msg : String),
        parse (cleanJson (text?.getD dflt)) = Except.error msg →
        runHelper parse mock dflt (Except.ok text?) = mock)
    ∧ (∀ (α : Type) (parse : String → Except String α) (mock : α)
        (dflt : String) (outcome : RequestOutcome),
        runHelper parse mock dflt outcome = mock
        ∨ ∃ text? v, outcome = Except.ok text?
            ∧ parse (cleanJson (text?.getD dflt)) = Except.ok v
            ∧ runHelper parse mock dflt outcome = v)
    ∧ (∀ (parse : String → Except String (List QuizQuestion)) (dflt e : String),
        runHelper parse (MOCK_QUIZ ++ MOCK_QUIZ) dflt (Except.error e) =
          MOCK_QUIZ ++ MOCK_QUIZ)
    ∧ (∀ (parse : String → Except String (List JobListing)) (dflt e : String),
        runHelper parse MOCK_JOBS dflt (Except.error e) = MOCK_JOBS) := by
  refine ⟨fun _ _ _ _ _ => rfl, ?_, ?_, fun _ _ _ => rfl, fun _ _ _ => rfl⟩
  · intro α parse mock dflt text? msg h
    simp [runHelper, h]
  · intro α parse mock dflt outcome
    cases outcome with
    | error e => exact Or.inl rfl
    | ok text? =>
        cases hp : parse (cleanJson (text?.getD dflt)) with
        | error msg => exact Or.inl (by simp [runHelper, hp])
        | ok v => exact Or.inr ⟨text?, v, rfl, hp, by simp [runHelper, hp]⟩

/-- Witness for C5: a parse that always fails makes the mock-test helper
body return the duplicated mock quiz. -/
theorem helper_error_absorption_witness :
    (fun _ : String => (Except.error "SyntaxError" :
        Except String (List QuizQuestion)))
      (cleanJson ((none : Option String).getD "[]")) = Except.error "SyntaxError"
    ∧ runHelper (fun _ => Except.error "SyntaxError") (MOCK_QUIZ ++ MOCK_QUIZ)
        "[]" (Except.ok none) = MOCK_QUIZ ++ MOCK_QUIZ :=
  ⟨rfl,
    helper_error_absorption.2.1 (List QuizQuestion)
      (fun _ => Except.error "SyntaxError") (MOCK_QUIZ ++ MOCK_QUIZ) "[]" none
      "SyntaxError" rfl⟩

/-- C8: with an active client, `searchJobs` returns exactly the grounding
citations that have a (truthy) title and link, mapped to listings — citation
title as title, citation link as url, the requested location as location,
company fixed — truncated to at most 6; when no such citation exists it
returns exactly one synthesized generic search-results listing. -/
theorem searchJobs_grounding (role location : String)
    (chunks : List GroundingChunk) :
    ((chunks.filter chunkHasTitleAndLink) ≠ [] →
      searchJobsOnline role location chunks =
        ((chunks.filter chunkHasTitleAndLink).map (chunkToListing location)).take 6
      ∧ (searchJobsOnline role location chunks).length ≤ 6
      ∧ ∀ l ∈ searchJobsOnline role location chunks,
          l.location = location ∧ l.company = "Source: Web")
    ∧ ((chunks.filter chunkHasTitleAndLink) = [] →
      searchJobsOnline role location chunks = [genericSearchListing role location])
    ∧ (∀ c w, c.web = some w → chunkHasTitleAndLink c = true →
        ∃ t u, w.title = some t ∧ w.uri = some u ∧ t ≠ "" ∧ u ≠ ""
          ∧ chunkToListing location c =
              ⟨t, "Source: Web", location, u⟩) := by
  refine ⟨?_, ?_, ?_⟩
  · intro hne
    have hmapne : (chunks.filter chunkHasTitleAndLink).map (chunkToListing location) ≠ [] := by
      simpa using hne
    obtain ⟨a, as, hcons⟩ := List.exists_cons_of_ne_nil hmapne
    have htake : (((chunks.filter chunkHasTitleAndLink).map
        (chunkToListing location)).take 6).isEmpty = false := by
      rw [hcons]
      rfl
    have heq : searchJobsOnline role location chunks =
        ((chunks.filter chunkHasTitleAndLink).map (chunkToListing location)).take 6 := by
      simp only [searchJobsOnline, htake, Bool.false_eq_true, if_false]
    refine ⟨heq, ?_, ?_⟩
    · rw [heq, List.length_take]
      exact min_le_left _ _
    · intro l hl
      rw [heq] at hl
      have hl' := List.mem_of_mem_take hl
      obtain ⟨c, _, rfl⟩ := List.mem_map.mp hl'
      exact ⟨rfl, rfl⟩
  · intro hemp
    simp only [searchJobsOnline, hemp, List.map_nil, List.take_nil,
      List.isEmpty_nil, if_true]
  · intro c w hw htl
    rw [chunkHasTitleAndLink, hw] at htl
    have hu : InterviewClient.jsTruthy w.uri = true := (Bool.and_eq_true _ _ |>.mp htl).1
    have ht : InterviewClient.jsTruthy w.title = true := (Bool.and_eq_true _ _ |>.mp htl).2
    obtain ⟨u, hwu⟩ : ∃ u, w.uri = some u := by
      cases h : w.uri with
      | none => rw [h] at hu; simp [InterviewClient.jsTruthy] at hu
      | some u => exact ⟨u, rfl⟩
    obtain ⟨t, hwt⟩ : ∃ t, w.title = some t := by
      cases h : w.title with
      | none => rw [h] at ht; simp [InterviewClient.jsTruthy] at ht
      | some t => exact ⟨t, rfl⟩
    rw [hwt] at ht
    rw [hwu] at hu
    have htne : t ≠ "" := by simpa [InterviewClient.jsTruthy] using ht
    have hune : u ≠ "" := by simpa [InterviewClient.jsTruthy] using hu
    refine ⟨t, u, hwt, hwu, htne, hune, ?_⟩
    simp [chunkToListing, hw, hwt, hwu, InterviewClient.jsOr, htne, hune]

/-- Witness for C8 at one concrete grounding citation. -/
theorem searchJobs_grounding_witness :
    ([(⟨some ⟨some "https://jobs.example/1", some "Frontend Engineer Opening"⟩⟩ :
        GroundingChunk)].filter chunkHasTitleAndLink ≠ [])
    ∧ searchJobsOnline "Frontend Engineer" "Remote"
        [⟨some ⟨some "https://jobs.example/1", some "Frontend Engineer Opening"⟩⟩] =
      (([(⟨some ⟨some "https://jobs.example/1", some "Frontend Engineer Opening"⟩⟩ :
          GroundingChunk)].filter chunkHasTitleAndLink).map
        (chunkToListing "Remote")).take 6 :=
  ⟨by decide,
    ((searchJobs_grounding "Frontend Engineer" "Remote"
      [⟨some ⟨some "https://jobs.example/1", some "Frontend Engineer Opening"⟩⟩]).1
      (by decide)).1⟩

end GeminiService
